import Mathlib

/-!
Shallow embedding of the capability/tool lifecycle layer of the `dev_ai`
package (AgentBuilder, Capability, BaseMCPCapability, Tool, the pydantic-ai
adapter and the filesystem capability), together with theorems settling the
frozen claims about its specification.

Conventions:
- Python strings are Lean `String`s; substring containment is `List.IsInfix`
  on the character lists.
- Fallible Python code (code that can raise) is embedded as `Except`.
- Mutable object state is embedded as explicit state passing.
-/

/-- Substring containment: `t` occurs contiguously inside `s`
(Python `t in s`). -/
def strContains (s t : String) : Prop := t.data <:+: s.data

instance (s t : String) : Decidable (strContains s t) := by
  unfold strContains
  infer_instance

/-- String `s` starts with `t` (Python `s.startswith(t)`). -/
def strStartsWith (s t : String) : Prop := t.data <+: s.data

instance (s t : String) : Decidable (strStartsWith s t) := by
  unfold strStartsWith
  infer_instance

/-- Python `str.lower()`: lower-case every character (character-wise map,
which agrees with Python on the ASCII capability names involved). -/
def pyLower (s : String) : String := ⟨s.data.map Char.toLower⟩

/-! ### MCP tool-call result envelope (`mcp.types.CallToolResult`)

From `dev_ai/capabilities/mcp/base.py`, `BaseMCPCapability.mcptool_to_tool`:
the adapted tool function joins the text of every content segment with a
newline and prefixes `"Error calling tool: "` exactly when the provider set
`isError`. -/

/-- A text content segment of an MCP tool result. -/
structure TextContent where
  text : String
  deriving Repr, DecidableEq

/-- The provider's result envelope for a tool call. -/
structure CallToolResult where
  content : List TextContent
  isError : Bool
  deriving Repr, DecidableEq

/-- Body of the adapted tool function `call_mcp_tool` in
`BaseMCPCapability.mcptool_to_tool` (mcp/base.py lines 144-150), applied to
the result the session returned: join the text segments with a newline, and
prefix the error marker when `isError` is set. A pure `String` is returned
in both cases; the function never raises on a provider-reported failure. -/
def call_mcp_tool_result (tool_result : CallToolResult) : String :=
  let content := String.intercalate "\n" (tool_result.content.map (·.text))
  if tool_result.isError then "Error calling tool: " ++ content else content

/-! ### Tool descriptors and `Tool.call` (`dev_ai/tool.py`)

`Tool` is a pydantic model with `name`, `description`, `input_schema`,
`function`, `updates_system_prompt`.  Of the input schema only the pieces the
claims touch are kept: the `enum` list of the single `name` parameter used by
the `enable_capability` meta-tool (`ParameterSpec.enum`); capability-provided
tools carry no enum (`nameEnum = none`). -/

/-- Outcome of running a tool function body: a returned string, a raised
`ToolError`, or any other raised exception. -/
inductive ToolOutcome where
  | ok (s : String)
  | toolError (msg : String)
  | otherError (msg : String)
  deriving Repr, DecidableEq

/-- A tool function: whether it is a coroutine function, and the outcome its
body produces when invoked (the embedding fixes the call arguments, so one
outcome suffices). -/
structure ToolFunction where
  isAsync : Bool
  outcome : ToolOutcome
  deriving Repr, DecidableEq

/-- A tool descriptor (`dev_ai/tool.py`, class `Tool`). -/
structure Tool where
  name : String
  description : String
  /-- `input_schema.properties.name.enum`, present only on the meta-tool. -/
  nameEnum : Option (List String)
  function : ToolFunction
  updates_system_prompt : Bool
  deriving Repr, DecidableEq

/-- Awaiting an async tool function body (`await self.function(**kwargs)`):
propagates whatever the body does. -/
def runAwait (f : ToolFunction) : ToolOutcome := f.outcome

/-- Running a sync tool function body on a worker thread
(`await run_sync(wrapped_func)`): anyio re-raises in the awaiting task any
exception the thread raised, so the outcome is again the body's outcome. -/
def runSyncOffloaded (f : ToolFunction) : ToolOutcome := f.outcome

/-- `Tool.call` (tool.py lines 74-94): run the body (awaited if async,
offloaded via `run_sync` if sync) inside `try ... except ToolError`, turning
a raised `ToolError` into the returned string `"Error: " ++ msg`.  Any other
exception escapes (`Except.error`). -/
def Tool.call (t : Tool) : Except String String :=
  let r := if t.function.isAsync then runAwait t.function else runSyncOffloaded t.function
  match r with
  | .ok s => .ok s
  | .toolError m => .ok ("Error: " ++ m)
  | .otherError m => .error m

/-! ### Capability (`dev_ai/capabilities/base.py`) and
AgentBuilder (`dev_ai/agent_builder.py`) -/

/-- A capability: name, mutable `enabled` flag, and the tools its
`get_tools()` returns (the claims never need `get_tools` to fail here, so it
is kept as a plain list). -/
structure Capability where
  name : String
  enabled : Bool
  tools : List Tool
  deriving Repr, DecidableEq

/-- `Capability.enable` (base.py line 39-40): sets the flag. -/
def Capability.enable (c : Capability) : Capability := { c with enabled := true }

/-- `Capability.disable` (base.py line 42-43): clears the flag. -/
def Capability.disable (c : Capability) : Capability := { c with enabled := false }

/-- The `AgentBuilder` state: role and the constructor-supplied capability
list, in registration order. -/
structure AgentBuilder where
  role : String
  capabilities : List Capability
  deriving Repr, DecidableEq

/-- `AgentBuilder.enabled_capabilities` (agent_builder.py lines 96-101):
computed on every read as the list comprehension
`[c for c in self._capabilities if c.enabled]`. -/
def AgentBuilder.enabled_capabilities (b : AgentBuilder) : List Capability :=
  b.capabilities.filter (·.enabled)

/-- `AgentBuilder.disabled_capabilities` (agent_builder.py lines 103-108):
`[c for c in self._capabilities if not c.enabled]`, computed on every read. -/
def AgentBuilder.disabled_capabilities (b : AgentBuilder) : List Capability :=
  b.capabilities.filter (fun c => !c.enabled)

/-- `AgentBuilder.enable_capability` (agent_builder.py lines 51-60): scan the
capability list in order; at the first case-insensitive name match set that
capability's `enabled` to `True` and return a success string; if no
capability matches, raise `ToolError`.  The returned list is the (possibly
updated) capability list, making the mutation explicit. -/
def enableCapabilityAux (caps : List Capability) (name : String) :
    List Capability × Except String String :=
  match caps with
  | [] => ([], .error ("Capability " ++ name ++ " not found"))
  | c :: rest =>
    if pyLower c.name = pyLower name then
      (c.enable :: rest, .ok ("Capability " ++ name ++ " enabled"))
    else
      let (rest', res) := enableCapabilityAux rest name
      (c :: rest', res)

/-- `AgentBuilder.enable_capability` as a state transition on the builder. -/
def AgentBuilder.enable_capability (b : AgentBuilder) (name : String) :
    AgentBuilder × Except String String :=
  let (caps', res) := enableCapabilityAux b.capabilities name
  ({ b with capabilities := caps' }, res)

/-- `AgentBuilder._get_enable_capabilities_tool` (agent_builder.py lines
29-49): a synthetic tool named `enable_capability` whose `name` parameter is
enumerated against the currently disabled capabilities and whose function is
`self.enable_capability`.  Since the embedding of a tool function fixes its
argument, the argument the agent will pass is supplied here as `callArg`. -/
def AgentBuilder.get_enable_capabilities_tool (b : AgentBuilder) (callArg : String) : Tool :=
  { name := "enable_capability"
    description := "Enable a capability"
    nameEnum := some (b.disabled_capabilities.map (·.name))
    function :=
      { isAsync := false
        outcome :=
          match (b.enable_capability callArg).2 with
          | .ok m => .ok m
          | .error m => .toolError m }
    updates_system_prompt := true }

/-- `AgentBuilder.get_tools` (agent_builder.py lines 80-94): start with the
meta-tool exactly when `disabled_capabilities` is non-empty, then extend with
the tools of each *enabled* capability, in registration order
(`asyncio.gather` preserves order). -/
def AgentBuilder.get_tools (b : AgentBuilder) (callArg : String) : List Tool :=
  (if b.disabled_capabilities.isEmpty then [] else [b.get_enable_capabilities_tool callArg]) ++
    b.enabled_capabilities.flatMap (·.tools)

/-- A pydantic-ai registered tool (`to_pydanticai_tool` in
pydantic_ai.py): the wrapped tool plus its `prepare`-time enablement.
`enabledRef = none` embeds `enabled=True` (a constant); `enabledRef = some i`
embeds the closure `lambda cap=capability: cap.enabled` over the capability
at index `i`, re-evaluated against current capability state on every call. -/
structure PydanticTool where
  tool : Tool
  enabledRef : Option Nat
  deriving Repr, DecidableEq

/-- The per-call enablement predicate of a registered pydantic-ai tool
(`enable_tool` in `to_pydanticai_tool`), evaluated against the current
capability list. -/
def pydanticToolEnabled (caps : List Capability) (pt : PydanticTool) : Bool :=
  match pt.enabledRef with
  | none => true
  | some i => ((caps.get? i).map (·.enabled)).getD false

/-- `AgentBuilder.get_pydantic_ai_tools` (agent_builder.py lines 110-133):
unconditionally starts with the meta-tool (with `enabled=True`), then, for
*every* capability (enabled or not), appends each of its tools with the
per-call predicate reading that capability's `enabled` flag. -/
def AgentBuilder.get_pydantic_ai_tools (b : AgentBuilder) (callArg : String) : List PydanticTool :=
  { tool := b.get_enable_capabilities_tool callArg, enabledRef := none } ::
    b.capabilities.enum.flatMap
      (fun p => p.2.tools.map (fun t => { tool := t, enabledRef := some p.1 }))

/-! ### MCP-backed capability (`dev_ai/capabilities/mcp/base.py`)

The `InstanceCache` decorator (`dev_ai/utils.py`) backs
`_get_allowed_mcp_tools` and `list_all_resources`: a call first checks the
instance attribute `_cached_<name>`; if absent it runs the function and
stores the result; `clear_cache()` deletes the attribute.  The two cached
attributes are embedded as two independent `Option` fields, and each
accessor additionally reports how many provider list queries it issued. -/

/-- A remote tool descriptor (`mcp.Tool`). -/
structure MCPTool where
  name : String
  description : String
  deriving Repr, DecidableEq

/-- Remote resource metadata (`mcp.Resource`). -/
structure MCPResourceMeta where
  uri : String
  name : String
  deriving Repr, DecidableEq

/-- `MCPResource` (mcp/base.py lines 24-27): metadata plus fetched content. -/
structure MCPResource where
  metadata : MCPResourceMeta
  content : List String
  deriving Repr, DecidableEq

/-- The provider behind an initialised client session: the tool and resource
lists it currently serves, and its responses to resource reads and tool
calls. -/
structure MCPSession where
  serverTools : List MCPTool
  serverResources : List MCPResourceMeta
  readResource : String → List String
  callTool : String → CallToolResult

/-- The `resources` constructor argument: a global boolean or a URI
predicate (`ResourceURIChecker`). -/
inductive IncludeResources where
  | flag (b : Bool)
  | pred (f : String → Bool)

/-- `UninitialisedMCPSessionError` (mcp/base.py lines 20-21). -/
inductive MCPError where
  | uninitialisedSession
  deriving Repr, DecidableEq

/-- State of a `BaseMCPCapability` (mcp/base.py): constructor configuration,
the session handle (`None` until `setup()` ran), and the two `InstanceCache`
attributes. -/
structure BaseMCPCapability where
  name : String
  description : String
  allowed_tools : Option (List String)
  include_resources : IncludeResources
  mcp_session : Option MCPSession
  cachedTools : Option (List MCPTool)
  cachedResources : Option (List MCPResourceMeta)

/-- The `mcp_session` property (mcp/base.py lines 127-133): raises
`UninitialisedMCPSessionError` while `_mcp_session` is `None`. -/
def BaseMCPCapability.session (c : BaseMCPCapability) : Except MCPError MCPSession :=
  match c.mcp_session with
  | none => .error .uninitialisedSession
  | some s => .ok s

/-- `BaseMCPCapability.setup` (mcp/base.py lines 106-120): starts the client
and installs the initialised session (supplied here by the environment). -/
def BaseMCPCapability.setup (c : BaseMCPCapability) (sess : MCPSession) : BaseMCPCapability :=
  { c with mcp_session := some sess }

/-- A freshly constructed capability (`__init__`, mcp/base.py lines 62-94):
no session, no cached attribute of either kind. -/
def BaseMCPCapability.fresh (name description : String) (tools : Option (List String))
    (resources : IncludeResources) : BaseMCPCapability :=
  { name := name, description := description, allowed_tools := tools
    include_resources := resources, mcp_session := none
    cachedTools := none, cachedResources := none }

/-- The allow-list filter of `_get_allowed_mcp_tools`:
`self._allowed_tools is None or tool.name in self._allowed_tools`. -/
def allowFilter (allowed : Option (List String)) (tools : List MCPTool) : List MCPTool :=
  tools.filter
    (fun t =>
      match allowed with
      | none => true
      | some a => a.contains t.name)

/-- `_get_allowed_mcp_tools` (mcp/base.py lines 170-175) under
`@cached_method`: return the cached list when present (no provider query);
otherwise query `mcp_session.list_tools()` (raising if uninitialised), keep
the tools passing the allow-list (`None` allows all), cache and return them.
The `Nat` counts provider `list_tools` queries issued by this call. -/
def BaseMCPCapability.get_allowed_mcp_tools (c : BaseMCPCapability) :
    Except MCPError (List MCPTool × BaseMCPCapability × Nat) :=
  match c.cachedTools with
  | some ts => .ok (ts, c, 0)
  | none =>
    match c.mcp_session with
    | none => .error .uninitialisedSession
    | some sess =>
      let ts := allowFilter c.allowed_tools sess.serverTools
      .ok (ts, { c with cachedTools := some ts }, 1)

/-- `_handle_tool_list_changed` (mcp/base.py lines 177-179): clear only the
tool-list cache. -/
def BaseMCPCapability.handle_tool_list_changed (c : BaseMCPCapability) : BaseMCPCapability :=
  { c with cachedTools := none }

/-- `_handle_resource_list_changed` (mcp/base.py lines 218-220): clear only
the resource-list cache. -/
def BaseMCPCapability.handle_resource_list_changed (c : BaseMCPCapability) : BaseMCPCapability :=
  { c with cachedResources := none }

/-- `list_all_resources` (mcp/base.py lines 201-204) under `@cached_method`:
cached resource metadata, refetched from `mcp_session.list_resources()` when
the cache is empty; counts provider `list_resources` queries. -/
def BaseMCPCapability.list_all_resources (c : BaseMCPCapability) :
    Except MCPError (List MCPResourceMeta × BaseMCPCapability × Nat) :=
  match c.cachedResources with
  | some rs => .ok (rs, c, 0)
  | none =>
    match c.mcp_session with
    | none => .error .uninitialisedSession
    | some sess => .ok (sess.serverResources, { c with cachedResources := some sess.serverResources }, 1)

/-- `mcptool_to_tool` (mcp/base.py lines 143-158): the adapted local tool.
Its function awaits `mcp_session.call_tool` and post-processes the envelope
exactly as `call_mcp_tool_result`; the provider's response to this tool's
call is `callResult`. -/
def BaseMCPCapability.mcptool_to_tool (mcp_tool : MCPTool) (callResult : CallToolResult) : Tool :=
  { name := mcp_tool.name
    description := mcp_tool.description
    nameEnum := none
    function := { isAsync := true, outcome := .ok (call_mcp_tool_result callResult) }
    updates_system_prompt := false }

/-- `BaseMCPCapability.get_tools` (mcp/base.py lines 140-141): adapt every
allowed remote tool; `resp` is the provider's per-tool call response. -/
def BaseMCPCapability.get_tools (c : BaseMCPCapability) (resp : String → CallToolResult) :
    Except MCPError (List Tool × BaseMCPCapability × Nat) :=
  (c.get_allowed_mcp_tools).map
    (fun r => (r.1.map (fun t => BaseMCPCapability.mcptool_to_tool t (resp t.name)), r.2))

/-- `_should_include_resource` (mcp/base.py lines 198-199). -/
def shouldIncludeResource (inc : IncludeResources) (uri : String) : Bool :=
  match inc with
  | .pred f => f uri
  | .flag b => b

/-- `read_resource` (mcp/base.py lines 206-216): requires the session. -/
def BaseMCPCapability.read_resource (c : BaseMCPCapability) (uri : String) :
    Except MCPError (List String) :=
  (c.session).map (fun sess => sess.readResource uri)

/-- `_get_included_resources` (mcp/base.py lines 182-196): short-circuits to
`[]` when `_include_resources is False` (before touching the session);
otherwise lists all resources and reads every one the predicate accepts. -/
def BaseMCPCapability.get_included_resources (c : BaseMCPCapability) :
    Except MCPError (List MCPResource × BaseMCPCapability) :=
  match c.include_resources with
  | .flag false => .ok ([], c)
  | _ =>
    match c.list_all_resources with
    | .error e => .error e
    | .ok (metas, c', _) =>
      ((metas.filter (fun m => shouldIncludeResource c.include_resources m.uri)).mapM
          (fun m => (c'.read_resource m.uri).map (fun content => MCPResource.mk m content))).map
        (fun rs => (rs, c'))

/-- `BaseMCPCapability.get_context_data` (mcp/base.py lines 160-168): format
the included resources, or return the empty string when there are none. -/
def BaseMCPCapability.get_context_data (c : BaseMCPCapability) :
    Except MCPError (String × BaseMCPCapability) :=
  (c.get_included_resources).map
    (fun r =>
      let resource_data := r.1.map
        (fun res =>
          "URI: " ++ res.metadata.uri ++ "\nName: " ++ res.metadata.name ++
            "Content: " ++ String.intercalate "\n" res.content ++ "\n")
      (if resource_data.isEmpty then ""
       else "Resources:\n" ++ String.intercalate "---\n" resource_data ++ "\n\n", r.2))

/-! ### Scoped lifecycle of the builder (`AgentBuilder.__aenter__` /
`__aexit__`, agent_builder.py lines 135-144)

`__aenter__` awaits `c.setup()` for each capability in registration order
with no exception handling, so a raising `setup()` aborts the loop and the
exception propagates out of `__aenter__`; by Python's `async with` protocol,
`__aexit__` is then *not* invoked.  `__aexit__` awaits `c.teardown()` over
`self._capabilities` in the same forward registration order. -/

/-- A capability as the lifecycle sees it: its name and whether its
`setup()` raises. -/
structure LifecycleCap where
  name : String
  setupFails : Bool
  deriving Repr, DecidableEq

/-- An observable lifecycle event. -/
inductive LifeEvent where
  | setupOk (name : String)
  | setupRaised (name : String)
  | teardownOk (name : String)
  deriving Repr, DecidableEq

/-- `__aenter__`: the events of the setup loop, and whether it completed. -/
def aenterTrace : List LifecycleCap → List LifeEvent × Bool
  | [] => ([], true)
  | c :: rest =>
    if c.setupFails then ([.setupRaised c.name], false)
    else
      let (tr, ok) := aenterTrace rest
      (.setupOk c.name :: tr, ok)

/-- `__aexit__`: teardown of every capability, in forward registration
order. -/
def aexitTrace (caps : List LifecycleCap) : List LifeEvent :=
  caps.map (fun c => .teardownOk c.name)

/-- `async with AgentBuilder(...)` around an empty body: run `__aenter__`;
only if it completed does Python invoke `__aexit__`. -/
def asyncWithTrace (caps : List LifecycleCap) : List LifeEvent :=
  let (tr, ok) := aenterTrace caps
  if ok then tr ++ aexitTrace caps else tr

/-! ### Filesystem capability
(`dev_ai/framework/capabilities/filesystem.py`)

`read_file` resolves the argument with `_get_abs_path` — which raises
`ToolError` for an absolute argument and otherwise joins it under the root
directory with *no* containment check — then opens the file, re-raising an
`OSError` as `ToolError(f"Error reading file: {repr(e)}")`.  The tool is
registered through the adapter wrapper (`wrap_tool_for_pydantic`,
framework/tool.py lines 73-99), whose `except ToolError` turns the raised
error into the returned string `"Error: " ++ msg`; that string is what the
conversation receives. -/

/-- `Path(path).is_absolute()` for a POSIX path string: the path begins with
the separator `/`. -/
def pathIsAbsolute (p : String) : Bool :=
  match p.data with
  | '/' :: _ => true
  | _ => false

/-- `self.root_directory / path` for a relative `path`: pathlib joins the
segments verbatim, performing no `..` resolution. -/
def joinUnderRoot (root p : String) : String := root ++ "/" ++ p

/-- The `OSError` raised by `open()`: CPython stores `(errno, strerror)` in
`args` and the offending path only in the separate `filename` attribute. -/
structure OSErrorModel where
  errno : Nat
  strerror : String
  filename : String
  deriving Repr, DecidableEq

/-- `repr(e)` for an `OSError` with errno 2 raised by `open()`:
`BaseException.__repr__` prints the class name and `args`, i.e.
`FileNotFoundError(2, 'No such file or directory')` — the `filename`
attribute is not part of `args` and does not appear. -/
def reprFileNotFoundError (e : OSErrorModel) : String :=
  "FileNotFoundError(" ++ toString e.errno ++ ", \x27" ++ e.strerror ++ "\x27)"

/-- The files the OS can open, keyed by the (unresolved) joined path string:
`open(p)` succeeds exactly when `p` is a key. -/
def FileSys := List (String × String)

/-- `open(path, "r").read()`: the contents, or the `FileNotFoundError`
CPython raises for a missing path. -/
def openRead (fs : FileSys) (path : String) : Except OSErrorModel String :=
  match List.lookup path fs with
  | some content => .ok content
  | none => .error { errno := 2, strerror := "No such file or directory", filename := path }

/-- `FileSystemCapability._get_abs_path` (filesystem.py lines 115-119):
reject an absolute argument with `ToolError`; otherwise join under the root
directory (no traversal check of any kind). -/
def get_abs_path (root path : String) : Except String String :=
  if pathIsAbsolute path then .error ("Path must be relative, not absolute: " ++ path)
  else .ok (joinUnderRoot root path)

/-- `FileSystemCapability.read_file` (filesystem.py lines 80-92): resolve,
open, read; an `OSError` from `open` becomes
`ToolError("Error reading file: " ++ repr(e))`. The `Except.error` carries
the `ToolError` message. -/
def read_file (fs : FileSys) (root path : String) : Except String String :=
  match get_abs_path root path with
  | .error m => .error m
  | .ok abs_path =>
    match openRead fs abs_path with
    | .ok content => .ok content
    | .error e => .error ("Error reading file: " ++ reprFileNotFoundError e)

/-- The adapter wrapper's `except ToolError` clause (framework/tool.py lines
96-99, identically `Tool.call` in tool.py): a raised `ToolError` is returned
to the conversation as the string `"Error: " ++ msg`. -/
def deliveredToolResult (r : Except String String) : String :=
  match r with
  | .ok s => s
  | .error m => "Error: " ++ m

/-- The string the conversation loop receives from a `read_file` call. -/
def read_file_delivered (fs : FileSys) (root path : String) : String :=
  deliveredToolResult (read_file fs root path)

/-- A concrete provider session used by witnesses. -/
def demoSession : MCPSession :=
  { serverTools := [{ name := "search", description := "Search" },
                    { name := "commit", description := "Commit" }]
    serverResources := [{ uri := "res://a", name := "a" }]
    readResource := fun _ => ["data"]
    callTool := fun _ => { content := [], isError := false } }

/-- A concrete MCP capability, freshly constructed and then set up. -/
def demoMCPCap : BaseMCPCapability :=
  (BaseMCPCapability.fresh "github" "GitHub" (some ["search"]) (.flag false)).setup demoSession

/-! ## Theorems -/

set_option maxRecDepth 8192

/-- Helper: a string contains its right append component. -/
lemma strContains_append_right (pre suf : String) : strContains (pre ++ suf) suf :=
  ⟨pre.data, [], by simp [String.data_append]⟩

/-- Helper: a string contains its left append component. -/
lemma strContains_append_left (pre suf : String) : strContains (pre ++ suf) pre :=
  ⟨[], suf.data, by simp [String.data_append]⟩

/-- Helper: containment is monotone under a further append on either side. -/
lemma strContains_of_append (pre s t : String) (h : strContains s t) :
    strContains (pre ++ s) t := by
  obtain ⟨u, v, huv⟩ := h
  exact ⟨pre.data ++ u, v, by simp [String.data_append, ← huv]⟩

/-- C6: the adapted remote tool function returns the provider result's text
segments joined as a plain string, prefixed with `"Error calling tool: "`
exactly when the provider's error flag is set, and never raises for a
provider-reported failure (`Tool.call` on the adapted tool always returns
a string, never propagates an exception); in particular
`{content: [{text: "42"}], isError: false}` yields `"42"` and
`{content: [{text: "boom"}], isError: true}` yields
`"Error calling tool: boom"`. -/
theorem C6_remote_result_to_string :
    (∀ r : CallToolResult, r.isError = true →
      call_mcp_tool_result r =
        "Error calling tool: " ++ String.intercalate "\n" (r.content.map (·.text))) ∧
    (∀ r : CallToolResult, r.isError = false →
      call_mcp_tool_result r = String.intercalate "\n" (r.content.map (·.text))) ∧
    (∀ (mt : MCPTool) (r : CallToolResult),
      Tool.call (BaseMCPCapability.mcptool_to_tool mt r) = .ok (call_mcp_tool_result r)) ∧
    call_mcp_tool_result { content := [{ text := "42" }], isError := false } = "42" ∧
    call_mcp_tool_result { content := [{ text := "boom" }], isError := true } =
      "Error calling tool: boom" := by
  refine ⟨?_, ?_, ?_, by decide, by decide⟩
  · intro r h
    simp [call_mcp_tool_result, h]
  · intro r h
    simp [call_mcp_tool_result, h]
  · intro mt r
    rfl

/-- C6 witness: the general error-flag clause applied at the concrete
`boom` result. -/
theorem C6_remote_result_to_string_witness :
    call_mcp_tool_result { content := [{ text := "boom" }], isError := true } =
      "Error calling tool: " ++
        String.intercalate "\n"
          ((({ content := [{ text := "boom" }], isError := true } : CallToolResult)).content.map
            (·.text)) :=
  C6_remote_result_to_string.1 { content := [{ text := "boom" }], isError := true } rfl

/-- C8: for every tool — async or sync body alike — whose body raises the
dedicated `ToolError`, `Tool.call` returns the string `"Error: " ++ msg`,
which contains `"Error:"` and the original message, and the exception never
escapes the wrapper (the result is `Except.ok`, not `Except.error`). -/
theorem C8_tool_error_converted_to_string (t : Tool) (m : String)
    (h : t.function.outcome = .toolError m) :
    Tool.call t = .ok ("Error: " ++ m) ∧
    strContains ("Error: " ++ m) "Error:" ∧
    strContains ("Error: " ++ m) m := by
  refine ⟨?_, ?_, strContains_append_right _ _⟩
  · unfold Tool.call runAwait runSyncOffloaded
    cases t.function.isAsync <;> simp [h]
  · have : ("Error: " ++ m) = "Error:" ++ (" " ++ m) := by
      have : ("Error: " : String) = "Error:" ++ " " := by decide
      rw [this, String.append_assoc]
    rw [this]
    exact strContains_append_left _ _

/-- C8 witness: a sync tool body raising `ToolError "boom"`. -/
theorem C8_tool_error_converted_to_string_witness :
    Tool.call
        { name := "t", description := "d", nameEnum := none
          function := { isAsync := false, outcome := .toolError "boom" }
          updates_system_prompt := false } =
      .ok ("Error: " ++ "boom") ∧
    strContains ("Error: " ++ "boom") "Error:" ∧
    strContains ("Error: " ++ "boom") "boom" :=
  C8_tool_error_converted_to_string
    { name := "t", description := "d", nameEnum := none
      function := { isAsync := false, outcome := .toolError "boom" }
      updates_system_prompt := false } "boom" rfl

/-- C9 counterexample: `read_file` on the nonexistent relative path
`"foo.txt"` delivers an error string to the conversation, but that string is
`"Error: Error reading file: FileNotFoundError(2, 'No such file or
directory')"` — `repr(e)` of the `OSError` prints only `args = (errno,
strerror)` — so it does *not* contain the path, contradicting the claim that
the error string contains the path. -/
theorem C9_counterexample :
    read_file_delivered [] "/root" "foo.txt" =
      "Error: Error reading file: FileNotFoundError(2, \x27No such file or directory\x27)" ∧
    ¬ strContains (read_file_delivered [] "/root" "foo.txt") "foo.txt" := by
  constructor
  · decide
  · decide

/-- C9 amended: a `read_file` call whose path argument is absolute or names
a missing file delivers a tool-result error string to the conversation and
never an exception; the absolute-path error string contains the path, while
the missing-file error string is the fixed text built from `repr` of the
`OSError` — containing the OS error message, not the path.  Path arguments
that traverse outside the root directory are not rejected at all: the
argument is joined under the root verbatim, so a `..` path reaching an
existing file returns that file's content. -/
theorem C9_filesystem_errors_as_strings (fs : FileSys) (root path : String) :
    (pathIsAbsolute path = true →
      read_file_delivered fs root path =
        "Error: " ++ ("Path must be relative, not absolute: " ++ path) ∧
      strContains (read_file_delivered fs root path) path) ∧
    (pathIsAbsolute path = false → List.lookup (joinUnderRoot root path) fs = none →
      read_file_delivered fs root path =
        "Error: Error reading file: FileNotFoundError(2, \x27No such file or directory\x27)") ∧
    (∀ content : String, pathIsAbsolute path = false →
      List.lookup (joinUnderRoot root path) fs = some content →
      read_file_delivered fs root path = content) := by
  refine ⟨fun habs => ?_, fun hrel hmiss => ?_, fun content hrel hsome => ?_⟩
  · constructor
    · simp [read_file_delivered, read_file, get_abs_path, habs, deliveredToolResult]
    · have h : read_file_delivered fs root path =
          "Error: " ++ ("Path must be relative, not absolute: " ++ path) := by
        simp [read_file_delivered, read_file, get_abs_path, habs, deliveredToolResult]
      rw [h]
      exact strContains_of_append _ _ _ (strContains_append_right _ _)
  · simp [read_file_delivered, read_file, get_abs_path, hrel, openRead, hmiss,
      deliveredToolResult, reprFileNotFoundError]
    decide
  · simp [read_file_delivered, read_file, get_abs_path, hrel, openRead, hsome,
      deliveredToolResult]

/-- C9 witness: the amended theorem applied to a concrete filesystem with an
absolute argument, a missing relative file, and a `..` path reaching an
existing file outside the root. -/
theorem C9_filesystem_errors_as_strings_witness :
    (read_file_delivered [("/root/../secret.txt", "s3cret")] "/root" "/etc/passwd" =
        "Error: " ++ ("Path must be relative, not absolute: " ++ "/etc/passwd") ∧
      strContains
        (read_file_delivered [("/root/../secret.txt", "s3cret")] "/root" "/etc/passwd")
        "/etc/passwd") ∧
    read_file_delivered [("/root/../secret.txt", "s3cret")] "/root" "missing.txt" =
      "Error: Error reading file: FileNotFoundError(2, \x27No such file or directory\x27)" ∧
    read_file_delivered [("/root/../secret.txt", "s3cret")] "/root" "../secret.txt" =
      "s3cret" :=
  ⟨(C9_filesystem_errors_as_strings [("/root/../secret.txt", "s3cret")] "/root" "/etc/passwd").1
      (by decide),
   (C9_filesystem_errors_as_strings [("/root/../secret.txt", "s3cret")] "/root"
      "missing.txt").2.1 (by decide) (by decide),
   (C9_filesystem_errors_as_strings [("/root/../secret.txt", "s3cret")] "/root"
      "../secret.txt").2.2 "s3cret" (by decide) (by decide)⟩

/-- C7 counterexample: with two registered capabilities where the second's
`setup()` raises, the scoped use of the builder performs no teardown at all
(Python does not invoke `__aexit__` when `__aenter__` raised), and even in
the all-successful case teardown runs in *forward* registration order
`[a, b]`, not the claimed reverse order. -/
theorem C7_counterexample :
    asyncWithTrace [⟨"a", false⟩, ⟨"b", true⟩] =
      [.setupOk "a", .setupRaised "b"] ∧
    (asyncWithTrace [⟨"a", false⟩, ⟨"b", true⟩]).all
      (fun e => match e with | .teardownOk _ => false | _ => true) = true ∧
    asyncWithTrace [⟨"a", false⟩, ⟨"b", false⟩] =
      [.setupOk "a", .setupOk "b", .teardownOk "a", .teardownOk "b"] ∧
    asyncWithTrace [⟨"a", false⟩, ⟨"b", false⟩] ≠
      [.setupOk "a", .setupOk "b", .teardownOk "b", .teardownOk "a"] := by
  refine ⟨by decide, by decide, by decide, by decide⟩

/-- C7 amended: entry invokes `setup()` once per capability in registration
order; exit invokes `teardown()` once per capability in the same *forward*
registration order, and only when every `setup()` succeeded — if some
capability's `setup()` raises, the exception propagates out of `__aenter__`,
`__aexit__` is never invoked, and no teardown runs at all. -/
theorem C7_scoped_lifecycle (caps : List LifecycleCap) :
    ((∀ c ∈ caps, c.setupFails = false) →
      asyncWithTrace caps =
        caps.map (fun c => .setupOk c.name) ++ caps.map (fun c => .teardownOk c.name)) ∧
    (∀ pre f post, caps = pre ++ f :: post → (∀ c ∈ pre, c.setupFails = false) →
      f.setupFails = true →
      asyncWithTrace caps = pre.map (fun c => .setupOk c.name) ++ [.setupRaised f.name]) := by
  constructor
  · intro hok
    have haux : aenterTrace caps = (caps.map (fun c => .setupOk c.name), true) := by
      induction caps with
      | nil => rfl
      | cons c rest ih =>
        have hc : c.setupFails = false := hok c (by simp)
        have hrest := ih (fun x hx => hok x (by simp [hx]))
        simp [aenterTrace, hc, hrest]
    simp [asyncWithTrace, haux, aexitTrace]
  · intro pre f post hsplit hpre hf
    subst hsplit
    have haux : aenterTrace (pre ++ f :: post) =
        (pre.map (fun c => .setupOk c.name) ++ [.setupRaised f.name], false) := by
      induction pre with
      | nil => simp [aenterTrace, hf]
      | cons c rest ih =>
        have hc : c.setupFails = false := hpre c (by simp)
        have hrest := ih (fun x hx => hpre x (by simp [hx]))
        simp [aenterTrace, hc, hrest]
    simp [asyncWithTrace, haux]

/-- C7 witness: the amended theorem at the concrete capability lists of the
counterexample. -/
theorem C7_scoped_lifecycle_witness :
    asyncWithTrace [⟨"a", false⟩, ⟨"b", false⟩] =
      ([⟨"a", false⟩, ⟨"b", false⟩] : List LifecycleCap).map (fun c => .setupOk c.name) ++
        ([⟨"a", false⟩, ⟨"b", false⟩] : List LifecycleCap).map (fun c => .teardownOk c.name) ∧
    asyncWithTrace [⟨"a", false⟩, ⟨"b", true⟩] =
      ([⟨"a", false⟩] : List LifecycleCap).map (fun c => .setupOk c.name) ++
        [.setupRaised "b"] :=
  ⟨(C7_scoped_lifecycle [⟨"a", false⟩, ⟨"b", false⟩]).1 (by decide),
   (C7_scoped_lifecycle [⟨"a", false⟩, ⟨"b", true⟩]).2 [⟨"a", false⟩] ⟨"b", true⟩ []
     rfl (by decide) rfl⟩

/-- C5 counterexample: a freshly constructed MCP capability with the default
`resources=False` — `setup()` has not run, `mcp_session` is `None` — returns
`""` from `get_context_data()` instead of signalling
`UninitialisedMCPSessionError`: `_get_included_resources` short-circuits on
`self._include_resources is False` before ever touching the session. -/
theorem C5_counterexample :
    (BaseMCPCapability.fresh "github" "GitHub MCP server" none (.flag false)).get_context_data =
      .ok ("", BaseMCPCapability.fresh "github" "GitHub MCP server" none (.flag false)) := by
  rfl

/-- C5 amended: on an MCP capability on which `setup()` has not completed
(no session, empty caches), `get_tools()` always signals
`UninitialisedMCPSessionError`, and `get_context_data()` signals it exactly
when resource inclusion is configured (`resources=True` or a URI predicate);
with the default `resources=False` it instead returns the empty string
without touching the session. -/
theorem C5_uninitialised_session (c : BaseMCPCapability) (resp : String → CallToolResult) :
    (c.mcp_session = none → c.cachedTools = none →
      c.get_tools resp = .error .uninitialisedSession) ∧
    (c.mcp_session = none → c.cachedResources = none →
      (c.include_resources = .flag true ∨ ∃ f, c.include_resources = .pred f) →
      c.get_context_data = .error .uninitialisedSession) ∧
    (c.include_resources = .flag false → c.get_context_data = .ok ("", c)) := by
  refine ⟨fun hs hc => ?_, fun hs hc hinc => ?_, fun hinc => ?_⟩
  · simp [BaseMCPCapability.get_tools, BaseMCPCapability.get_allowed_mcp_tools, hs, hc,
      Except.map]
  · have hres : c.list_all_resources = .error .uninitialisedSession := by
      simp [BaseMCPCapability.list_all_resources, hs, hc]
    rcases hinc with h | ⟨f, h⟩ <;>
      simp [BaseMCPCapability.get_context_data, BaseMCPCapability.get_included_resources,
        h, hres, Except.map]
  · simp [BaseMCPCapability.get_context_data, BaseMCPCapability.get_included_resources, hinc,
      Except.map]

/-- C5 witness: the amended theorem at fresh capabilities, one configured
with `resources=True` (both accessors signal the error) and one with the
default `resources=False` (context data is the empty string). -/
theorem C5_uninitialised_session_witness :
    (BaseMCPCapability.fresh "gh" "d" none (.flag true)).get_tools
        (fun _ => { content := [], isError := false }) = .error .uninitialisedSession ∧
    (BaseMCPCapability.fresh "gh" "d" none (.flag true)).get_context_data =
      .error .uninitialisedSession ∧
    (BaseMCPCapability.fresh "gh" "d" none (.flag false)).get_context_data =
      .ok ("", BaseMCPCapability.fresh "gh" "d" none (.flag false)) :=
  ⟨(C5_uninitialised_session (BaseMCPCapability.fresh "gh" "d" none (.flag true))
      (fun _ => { content := [], isError := false })).1 rfl rfl,
   (C5_uninitialised_session (BaseMCPCapability.fresh "gh" "d" none (.flag true))
      (fun _ => { content := [], isError := false })).2.1 rfl rfl (.inl rfl),
   (C5_uninitialised_session (BaseMCPCapability.fresh "gh" "d" none (.flag false))
      (fun _ => { content := [], isError := false })).2.2 rfl⟩

/-- C1: on an initialised MCP capability (session present, tool cache empty
as `setup()` leaves it), the first `_get_allowed_mcp_tools` call issues
exactly one provider `list_tools` query and the second call issues none,
returning the cached list unchanged; after a tool-list-changed notification
the next call issues a fresh provider query; and each notification clears
only its respective cache (tool notification clears only the tool cache,
resource notification clears only the resource cache). -/
theorem C1_tool_cache_invalidation (c : BaseMCPCapability) (sess : MCPSession)
    (hs : c.mcp_session = some sess) (hc : c.cachedTools = none) :
    ∃ ts c1,
      c.get_allowed_mcp_tools = .ok (ts, c1, 1) ∧
      c1.get_allowed_mcp_tools = .ok (ts, c1, 0) ∧
      (c1.handle_tool_list_changed).get_allowed_mcp_tools = .ok (ts, c1, 1) ∧
      (∀ d : BaseMCPCapability,
        d.handle_tool_list_changed.cachedTools = none ∧
        d.handle_tool_list_changed.cachedResources = d.cachedResources ∧
        d.handle_resource_list_changed.cachedResources = none ∧
        d.handle_resource_list_changed.cachedTools = d.cachedTools) := by
  refine ⟨allowFilter c.allowed_tools sess.serverTools,
    { c with cachedTools := some (allowFilter c.allowed_tools sess.serverTools) },
    ?_, ?_, ?_, fun d => ⟨rfl, rfl, rfl, rfl⟩⟩
  · simp [BaseMCPCapability.get_allowed_mcp_tools, hc, hs]
  · simp [BaseMCPCapability.get_allowed_mcp_tools]
  · simp [BaseMCPCapability.get_allowed_mcp_tools,
      BaseMCPCapability.handle_tool_list_changed, hs]

/-- C1 witness: the theorem at the concrete set-up capability. -/
theorem C1_tool_cache_invalidation_witness :
    ∃ ts c1,
      demoMCPCap.get_allowed_mcp_tools = .ok (ts, c1, 1) ∧
      c1.get_allowed_mcp_tools = .ok (ts, c1, 0) ∧
      (c1.handle_tool_list_changed).get_allowed_mcp_tools = .ok (ts, c1, 1) ∧
      (∀ d : BaseMCPCapability,
        d.handle_tool_list_changed.cachedTools = none ∧
        d.handle_tool_list_changed.cachedResources = d.cachedResources ∧
        d.handle_resource_list_changed.cachedResources = none ∧
        d.handle_resource_list_changed.cachedTools = d.cachedTools) :=
  C1_tool_cache_invalidation demoMCPCap demoSession rfl rfl

/-- C4: `enabled_capabilities` and `disabled_capabilities` partition the
constructor-supplied capability list by the current `enabled` flag alone —
membership in the enabled (resp. disabled) list is equivalent to membership
in the capability list with flag `true` (resp. `false`), both lists preserve
registration order (they are sublists of the capability list), their lengths
sum to the whole list, and a toggle via `enable()`/`disable()` is reflected
by the immediately following read. -/
theorem C4_live_partition (b : AgentBuilder) :
    (∀ c : Capability, c ∈ b.enabled_capabilities ↔ c ∈ b.capabilities ∧ c.enabled = true) ∧
    (∀ c : Capability, c ∈ b.disabled_capabilities ↔ c ∈ b.capabilities ∧ c.enabled = false) ∧
    b.enabled_capabilities.Sublist b.capabilities ∧
    b.disabled_capabilities.Sublist b.capabilities ∧
    b.enabled_capabilities.length + b.disabled_capabilities.length = b.capabilities.length ∧
    (∀ (i : Nat) (c : Capability), b.capabilities.get? i = some c →
      (c.enable ∈
          (AgentBuilder.mk b.role (b.capabilities.set i c.enable)).enabled_capabilities ∧
        c.enable ∉
          (AgentBuilder.mk b.role (b.capabilities.set i c.enable)).disabled_capabilities) ∧
      (c.disable ∈
          (AgentBuilder.mk b.role (b.capabilities.set i c.disable)).disabled_capabilities ∧
        c.disable ∉
          (AgentBuilder.mk b.role (b.capabilities.set i c.disable)).enabled_capabilities)) := by
  refine ⟨?_, ?_, List.filter_sublist _, List.filter_sublist _, ?_, ?_⟩
  · intro c
    simp [AgentBuilder.enabled_capabilities, List.mem_filter]
  · intro c
    simp [AgentBuilder.disabled_capabilities, List.mem_filter]
  · exact (List.length_eq_length_filter_add (fun c : Capability => c.enabled)).symm
  · intro i c hget
    have hlt : i < b.capabilities.length := List.get?_eq_some.mp hget |>.1
    have hmem_en : c.enable ∈ b.capabilities.set i c.enable := by
      have : (b.capabilities.set i c.enable).get? i = some c.enable := by
        rw [List.get?_set_eq_of_lt _ (by simpa using hlt)]
      exact List.get?_mem this
    have hmem_dis : c.disable ∈ b.capabilities.set i c.disable := by
      have : (b.capabilities.set i c.disable).get? i = some c.disable := by
        rw [List.get?_set_eq_of_lt _ (by simpa using hlt)]
      exact List.get?_mem this
    refine ⟨⟨?_, ?_⟩, ⟨?_, ?_⟩⟩
    · simpa [AgentBuilder.enabled_capabilities, List.mem_filter, Capability.enable]
        using hmem_en
    · simp [AgentBuilder.disabled_capabilities, List.mem_filter, Capability.enable]
    · simpa [AgentBuilder.disabled_capabilities, List.mem_filter, Capability.disable]
        using hmem_dis
    · simp [AgentBuilder.enabled_capabilities, List.mem_filter, Capability.disable]

/-- C4 witness: the theorem at a concrete two-capability builder. -/
theorem C4_live_partition_witness :
    (AgentBuilder.mk "dev" [⟨"github", false, []⟩, ⟨"fs", true, []⟩]).enabled_capabilities.length +
        (AgentBuilder.mk "dev" [⟨"github", false, []⟩, ⟨"fs", true, []⟩]).disabled_capabilities.length =
      (AgentBuilder.mk "dev" [⟨"github", false, []⟩, ⟨"fs", true, []⟩]).capabilities.length ∧
    (Capability.mk "github" false []).enable ∈
      (AgentBuilder.mk "dev"
        ([⟨"github", false, []⟩, ⟨"fs", true, []⟩].set 0
          (Capability.mk "github" false []).enable)).enabled_capabilities :=
  ⟨(C4_live_partition (AgentBuilder.mk "dev" [⟨"github", false, []⟩, ⟨"fs", true, []⟩])).2.2.2.2.1,
   (((C4_live_partition (AgentBuilder.mk "dev" [⟨"github", false, []⟩, ⟨"fs", true, []⟩])).2.2.2.2.2
      0 ⟨"github", false, []⟩ rfl).1).1⟩

/-- Helper: complete case analysis of `enableCapabilityAux` — either some
first case-insensitive match exists and exactly that entry is enabled with a
success message, or no capability matches, the list is returned unchanged
and the "not found" `ToolError` is raised. -/
lemma enableAux_spec (caps : List Capability) (name : String) :
    (∃ i c, caps.get? i = some c ∧ pyLower c.name = pyLower name ∧
      (∀ j cj, j < i → caps.get? j = some cj → pyLower cj.name ≠ pyLower name) ∧
      enableCapabilityAux caps name =
        (caps.set i c.enable, .ok ("Capability " ++ name ++ " enabled"))) ∨
    ((∀ c ∈ caps, pyLower c.name ≠ pyLower name) ∧
      enableCapabilityAux caps name =
        (caps, .error ("Capability " ++ name ++ " not found"))) := by
  induction caps with
  | nil => exact .inr ⟨by simp, rfl⟩
  | cons c rest ih =>
    by_cases h : pyLower c.name = pyLower name
    · refine .inl ⟨0, c, rfl, h, fun j cj hj => absurd hj (Nat.not_lt_zero j), ?_⟩
      simp [enableCapabilityAux, h]
    · rcases ih with ⟨i, ci, hget, hm, hfirst, heq⟩ | ⟨hall, heq⟩
      · refine .inl ⟨i + 1, ci, by simpa using hget, hm, ?_, ?_⟩
        · intro j cj hj hgj
          match j with
          | 0 =>
            simp only [List.get?] at hgj
            cases hgj
            exact h
          | j' + 1 =>
            exact hfirst j' cj (Nat.lt_of_succ_lt_succ hj) (by simpa using hgj)
        · simp [enableCapabilityAux, h, heq]
      · refine .inr ⟨?_, ?_⟩
        · intro x hx
          rcases List.mem_cons.mp hx with hx | hx
          · subst hx; exact h
          · exact hall x hx
        · simp [enableCapabilityAux, h, heq]

/-- C3: `enable_capability(name)` with a case-insensitively matching name
sets that capability's `enabled` flag to `true` and returns the success
string; with a name matching no capability it raises the `ToolError`
`"Capability <name> not found"`, which `Tool.call` on the meta-tool
surfaces to the agent as the tool-result string
`"Error: Capability <name> not found"` rather than a propagating
exception. -/
theorem C3_enable_capability_result (b : AgentBuilder) (name : String) :
    ((∃ c ∈ b.capabilities, pyLower c.name = pyLower name) →
      ∃ i c, b.capabilities.get? i = some c ∧ pyLower c.name = pyLower name ∧
        (b.enable_capability name).1.capabilities = b.capabilities.set i c.enable ∧
        c.enable.enabled = true ∧
        (b.enable_capability name).2 = .ok ("Capability " ++ name ++ " enabled") ∧
        Tool.call (b.get_enable_capabilities_tool name) =
          .ok ("Capability " ++ name ++ " enabled")) ∧
    ((∀ c ∈ b.capabilities, pyLower c.name ≠ pyLower name) →
      (b.enable_capability name).2 = .error ("Capability " ++ name ++ " not found") ∧
      Tool.call (b.get_enable_capabilities_tool name) =
        .ok ("Error: " ++ ("Capability " ++ name ++ " not found"))) := by
  rcases enableAux_spec b.capabilities name with ⟨i, c, hget, hm, hfirst, heq⟩ | ⟨hall, heq⟩
  · constructor
    · intro _
      refine ⟨i, c, hget, hm, ?_, rfl, ?_, ?_⟩
      · simp [AgentBuilder.enable_capability, heq]
      · simp [AgentBuilder.enable_capability, heq]
      · simp [Tool.call, AgentBuilder.get_enable_capabilities_tool, runSyncOffloaded,
          AgentBuilder.enable_capability, heq]
    · intro hnone
      exact absurd hm (hnone c (List.get?_mem hget))
  · constructor
    · rintro ⟨c, hc, hm⟩
      exact absurd hm (hall c hc)
    · intro _
      refine ⟨?_, ?_⟩
      · simp [AgentBuilder.enable_capability, heq]
      · simp [Tool.call, AgentBuilder.get_enable_capabilities_tool, runSyncOffloaded,
          AgentBuilder.enable_capability, heq]

/-- C3 witness: a builder holding a disabled `GitHub` capability; enabling
by the lower-case name succeeds, and an unknown name is surfaced as an
error string through `Tool.call`. -/
theorem C3_enable_capability_result_witness :
    (∃ i c, (AgentBuilder.mk "dev" [⟨"GitHub", false, []⟩]).capabilities.get? i = some c ∧
      pyLower c.name = pyLower "github" ∧
      ((AgentBuilder.mk "dev" [⟨"GitHub", false, []⟩]).enable_capability
          "github").1.capabilities =
        (AgentBuilder.mk "dev" [⟨"GitHub", false, []⟩]).capabilities.set i c.enable ∧
      c.enable.enabled = true ∧
      ((AgentBuilder.mk "dev" [⟨"GitHub", false, []⟩]).enable_capability "github").2 =
        .ok ("Capability " ++ "github" ++ " enabled") ∧
      Tool.call ((AgentBuilder.mk "dev" [⟨"GitHub", false, []⟩]).get_enable_capabilities_tool
          "github") =
        .ok ("Capability " ++ "github" ++ " enabled")) ∧
    (((AgentBuilder.mk "dev" [⟨"GitHub", false, []⟩]).enable_capability "nope").2 =
        .error ("Capability " ++ "nope" ++ " not found") ∧
      Tool.call ((AgentBuilder.mk "dev" [⟨"GitHub", false, []⟩]).get_enable_capabilities_tool
          "nope") =
        .ok ("Error: " ++ ("Capability " ++ "nope" ++ " not found"))) :=
  ⟨(C3_enable_capability_result (AgentBuilder.mk "dev" [⟨"GitHub", false, []⟩]) "github").1
      ⟨⟨"GitHub", false, []⟩, by decide, by decide⟩,
   (C3_enable_capability_result (AgentBuilder.mk "dev" [⟨"GitHub", false, []⟩]) "nope").2
      (by decide)⟩

/-- C10: `enable_capability` mutates at most one capability: when it
succeeds, the updated list is the original with exactly the first
case-insensitively matching entry replaced by the same capability with
`enabled := true` (name and tools preserved, every other index unchanged,
length unchanged); on the unknown-name error path the builder — in
particular every capability's flag — is unchanged. -/
theorem C10_enable_capability_frame (b : AgentBuilder) (name : String) :
    (∀ m, (b.enable_capability name).2 = .ok m →
      ∃ i c, b.capabilities.get? i = some c ∧
        pyLower c.name = pyLower name ∧
        (∀ j cj, j < i → b.capabilities.get? j = some cj → pyLower cj.name ≠ pyLower name) ∧
        (b.enable_capability name).1.capabilities =
          b.capabilities.set i { c with enabled := true } ∧
        (∀ j, j ≠ i →
          (b.enable_capability name).1.capabilities.get? j = b.capabilities.get? j) ∧
        (b.enable_capability name).1.capabilities.length = b.capabilities.length) ∧
    (∀ m, (b.enable_capability name).2 = .error m →
      (b.enable_capability name).1 = b) := by
  rcases enableAux_spec b.capabilities name with ⟨i, c, hget, hm, hfirst, heq⟩ | ⟨hall, heq⟩
  · constructor
    · intro m _
      have hset : (b.enable_capability name).1.capabilities =
          b.capabilities.set i { c with enabled := true } := by
        simp [AgentBuilder.enable_capability, heq, Capability.enable]
      refine ⟨i, c, hget, hm, hfirst, hset, ?_, ?_⟩
      · intro j hj
        rw [hset]
        exact List.get?_set_ne _ _ (fun h => hj h.symm)
      · rw [hset]
        exact List.length_set ..
    · intro m hm2
      have : (b.enable_capability name).2 = .ok ("Capability " ++ name ++ " enabled") := by
        simp [AgentBuilder.enable_capability, heq]
      rw [this] at hm2
      cases hm2
  · constructor
    · intro m hm2
      have : (b.enable_capability name).2 =
          .error ("Capability " ++ name ++ " not found") := by
        simp [AgentBuilder.enable_capability, heq]
      rw [this] at hm2
      cases hm2
    · intro m _
      simp [AgentBuilder.enable_capability, heq]

/-- C10 witness: the frame theorem on a concrete two-capability builder —
a successful enable touches only the matching entry, and an unknown name
leaves the builder unchanged. -/
theorem C10_enable_capability_frame_witness :
    (∃ i c,
      (AgentBuilder.mk "dev" [⟨"GitHub", false, []⟩, ⟨"fs", true, []⟩]).capabilities.get? i =
          some c ∧
        pyLower c.name = pyLower "github" ∧
        (∀ j cj, j < i →
          (AgentBuilder.mk "dev"
              [⟨"GitHub", false, []⟩, ⟨"fs", true, []⟩]).capabilities.get? j = some cj →
          pyLower cj.name ≠ pyLower "github") ∧
        ((AgentBuilder.mk "dev" [⟨"GitHub", false, []⟩, ⟨"fs", true, []⟩]).enable_capability
              "github").1.capabilities =
          (AgentBuilder.mk "dev"
              [⟨"GitHub", false, []⟩, ⟨"fs", true, []⟩]).capabilities.set i
            { c with enabled := true } ∧
        (∀ j, j ≠ i →
          ((AgentBuilder.mk "dev" [⟨"GitHub", false, []⟩, ⟨"fs", true, []⟩]).enable_capability
                "github").1.capabilities.get? j =
            (AgentBuilder.mk "dev"
                [⟨"GitHub", false, []⟩, ⟨"fs", true, []⟩]).capabilities.get? j) ∧
        ((AgentBuilder.mk "dev" [⟨"GitHub", false, []⟩, ⟨"fs", true, []⟩]).enable_capability
              "github").1.capabilities.length =
          (AgentBuilder.mk "dev"
              [⟨"GitHub", false, []⟩, ⟨"fs", true, []⟩]).capabilities.length) ∧
    ((AgentBuilder.mk "dev" [⟨"GitHub", false, []⟩, ⟨"fs", true, []⟩]).enable_capability
          "nope").1 =
      AgentBuilder.mk "dev" [⟨"GitHub", false, []⟩, ⟨"fs", true, []⟩] :=
  ⟨(C10_enable_capability_frame
      (AgentBuilder.mk "dev" [⟨"GitHub", false, []⟩, ⟨"fs", true, []⟩]) "github").1
      ("Capability " ++ "github" ++ " enabled") rfl,
   (C10_enable_capability_frame
      (AgentBuilder.mk "dev" [⟨"GitHub", false, []⟩, ⟨"fs", true, []⟩]) "nope").2
      ("Capability " ++ "nope" ++ " not found") rfl⟩

/-- A concrete capability-provided tool used in counterexamples and
witnesses. -/
def demoTool : Tool :=
  { name := "read_file", description := "Read a file", nameEnum := none
    function := { isAsync := true, outcome := .ok "content" }
    updates_system_prompt := false }

/-- C2 counterexample: the claim's biconditional fails on both constructed
tool lists.  With a single *enabled* capability (so no capability is
disabled), `get_pydantic_ai_tools` — the list with the per-call enablement
predicate — still contains the synthetic `enable_capability` meta-tool; and
with a single *disabled* capability owning a tool, `get_tools` (which does
gate the meta-tool on a disabled capability existing) omits the disabled
capability's tool instead of including it. -/
theorem C2_counterexample :
    (AgentBuilder.mk "dev" [⟨"file_system", true, []⟩]).disabled_capabilities = [] ∧
    (∃ pt ∈ (AgentBuilder.mk "dev" [⟨"file_system", true, []⟩]).get_pydantic_ai_tools "x",
      pt.tool.name = "enable_capability") ∧
    demoTool ∈ (AgentBuilder.mk "dev" [⟨"fs", false, [demoTool]⟩]).capabilities.flatMap
      (fun c => c.tools) ∧
    demoTool ∉ (AgentBuilder.mk "dev" [⟨"fs", false, [demoTool]⟩]).get_tools "x" := by
  refine ⟨rfl, ⟨_, List.mem_cons_self _ _, rfl⟩, by decide, by decide⟩

/-- C2 amended: the two constructed tool lists split the claimed property.
`get_tools` contains the meta-tool exactly when some capability is disabled,
but lists only *enabled* capabilities' tools; `get_pydantic_ai_tools`
contains the meta-tool unconditionally (even with nothing disabled), and it
is this list that includes every tool of every capability — enabled or not —
with a tool of capability `i` dispatched through the per-call enablement
predicate that evaluates that capability's current `enabled` flag (the
meta-tool's predicate is constantly true). -/
theorem C2_constructed_tool_lists (b : AgentBuilder) (arg : String) :
    (b.disabled_capabilities = [] →
      b.get_tools arg = b.enabled_capabilities.flatMap (fun c => c.tools)) ∧
    (b.disabled_capabilities ≠ [] →
      b.get_tools arg =
        b.get_enable_capabilities_tool arg ::
          b.enabled_capabilities.flatMap (fun c => c.tools)) ∧
    (b.get_pydantic_ai_tools arg).head? =
      some { tool := b.get_enable_capabilities_tool arg, enabledRef := none } ∧
    (∀ (i : Nat) (cap : Capability) (t : Tool),
      b.capabilities.get? i = some cap → t ∈ cap.tools →
      ({ tool := t, enabledRef := some i } : PydanticTool) ∈ b.get_pydantic_ai_tools arg) ∧
    (∀ (i : Nat) (cap : Capability), b.capabilities.get? i = some cap →
      ∀ t : Tool,
        pydanticToolEnabled b.capabilities { tool := t, enabledRef := some i } = cap.enabled) ∧
    pydanticToolEnabled b.capabilities
        { tool := b.get_enable_capabilities_tool arg, enabledRef := none } = true := by
  refine ⟨fun h => ?_, fun h => ?_, rfl, fun i cap t hget ht => ?_, fun i cap hget t => ?_, rfl⟩
  · simp [AgentBuilder.get_tools, h]
  · have : b.disabled_capabilities.isEmpty = false := by
      cases hd : b.disabled_capabilities with
      | nil => exact absurd hd h
      | cons x xs => rfl
    simp [AgentBuilder.get_tools, this]
  · refine List.mem_cons_of_mem _ (List.mem_flatMap.mpr ⟨(i, cap), ?_, ?_⟩)
    · exact List.mk_mem_enum_iff_getElem?.mpr (by rwa [← List.get?_eq_getElem?])
    · exact List.mem_map_of_mem _ ht
  · rw [List.get?_eq_getElem?] at hget
    simp [pydanticToolEnabled, hget]

/-- C2 witness: the amended theorem at a builder with one disabled
capability owning a tool: `get_tools` gains the meta-tool, the disabled
capability's tool is in the pydantic list, and its dispatch predicate
evaluates to the capability's (false) flag. -/
theorem C2_constructed_tool_lists_witness :
    (AgentBuilder.mk "dev" [⟨"fs", false, [demoTool]⟩]).get_tools "x" =
      (AgentBuilder.mk "dev" [⟨"fs", false, [demoTool]⟩]).get_enable_capabilities_tool "x" ::
        (AgentBuilder.mk "dev"
            [⟨"fs", false, [demoTool]⟩]).enabled_capabilities.flatMap (fun c => c.tools) ∧
    ({ tool := demoTool, enabledRef := some 0 } : PydanticTool) ∈
      (AgentBuilder.mk "dev" [⟨"fs", false, [demoTool]⟩]).get_pydantic_ai_tools "x" ∧
    pydanticToolEnabled (AgentBuilder.mk "dev" [⟨"fs", false, [demoTool]⟩]).capabilities
        { tool := demoTool, enabledRef := some 0 } =
      (Capability.mk "fs" false [demoTool]).enabled :=
  ⟨(C2_constructed_tool_lists (AgentBuilder.mk "dev" [⟨"fs", false, [demoTool]⟩]) "x").2.1
      (by decide),
   (C2_constructed_tool_lists (AgentBuilder.mk "dev" [⟨"fs", false, [demoTool]⟩]) "x").2.2.2.1
      0 ⟨"fs", false, [demoTool]⟩ demoTool rfl (List.mem_cons_self _ _),
   (C2_constructed_tool_lists (AgentBuilder.mk "dev" [⟨"fs", false, [demoTool]⟩]) "x").2.2.2.2.1
      0 ⟨"fs", false, [demoTool]⟩ rfl demoTool⟩
